import Mathlib

/-!
Verification of the `JokeAnalyzer` cog (src/cogs/JokeAnalyzer.py).

Shallow embedding conventions:
* Python strings are modelled as `List Char` (`Str`); slicing `s[:n]` is
  `List.take n`, `str.startswith`/`str.endswith` are `List.isPrefixOf` /
  `List.isSuffixOf`, `str.lower()` maps `Char.toLower`.
* Side effects (platform sends, reactions, network calls, sleeps) are
  recorded in an explicit event trace (`List Event`) returned by each
  handler; the network is an environment parameter describing what each
  outbound call would yield.
* Python exceptions raised by a network call are modelled as `Except`
  values in the environment; the `try/except` blocks of the source consume
  them, so the embedded handlers are total functions.
-/

abbrev Str := List Char

/-- Python `s.startswith(p)`. -/
def pyStartsWith (s p : Str) : Bool := p.isPrefixOf s

/-- Python `s.endswith(p)`. -/
def pyEndsWith (s p : Str) : Bool := p.isSuffixOf s

/-- Python `s.lower()` (ASCII-adequate model). -/
def pyLower (s : Str) : Str := s.map Char.toLower

/-- Python `s[:n]` for `n ≥ 0`. -/
def pySlice (s : Str) (n : Nat) : Str := s.take n

/-- Python `s.strip()`. -/
def pyStrip (s : Str) : Str :=
  ((s.dropWhile Char.isWhitespace).reverse.dropWhile Char.isWhitespace).reverse

/-- Decimal rendering of a number, as Python string interpolation does. -/
def natStr (n : Nat) : Str := (toString n).data

/-- The presentation object (`discord.Embed`) as far as the cog fills it in. -/
structure Embed where
  title : Str
  description : Str
  fields : List (Str × Str)
  image : Option Str
  footer : Option Str
  author : Option Str
  deriving DecidableEq, Repr

/-- Observable actions of the cog: platform messaging and outbound calls. -/
inductive Event where
  | send (text : Str)
  | sendEmbed (e : Embed)
  | reply (text : Str)
  | replyEmbed (e : Embed)
  | addReaction (emoji : Str)
  | removeReaction (emoji : Str)
  | textApiCall (content : Str)
  | imageApiCall (url : Str)
  | sleep (seconds : Nat)
  deriving DecidableEq, Repr

/-- Is the event an outbound backend (network) call? -/
def Event.isBackendCall : Event → Bool
  | Event.textApiCall _ => true
  | Event.imageApiCall _ => true
  | _ => false

/-- Is the event a call to the text backend? -/
def Event.isTextCall : Event → Bool
  | Event.textApiCall _ => true
  | _ => false

/-- Is the event any user-visible platform message (send or reply)? -/
def Event.isUserMessage : Event → Bool
  | Event.send _ => true
  | Event.sendEmbed _ => true
  | Event.reply _ => true
  | Event.replyEmbed _ => true
  | _ => false

/-- A parsed successful HTTP response of the text backend:
`response.status` and the extracted `choices[0].message.content`. -/
structure Response where
  status : Nat
  content : Str
  deriving DecidableEq, Repr

/- Fixed strings of the source (JokeAnalyzer.py). -/

def EMOJI_TRIGGER : Str := "🤡".data

def magnifier : Str := "🔍".data

def msgNoDeepSeekKey : Str := "❌ DeepSeek API金鑰未配置，無法分析笑話".data

def msgNoMiniMaxKey : Str := "❌ MiniMax API金鑰未配置，無法分析圖片".data

def msgApiError (status : Nat) : Str :=
  "❌ API錯誤 (狀態碼: ".data ++ natStr status ++ ")".data

def msgTextFail (e : Str) : Str := "❌ 分析失敗: ".data ++ e

def msgImageFail (e : Str) : Str := "❌ 圖片分析失敗: ".data ++ e

def msgTooLongCommand : Str := "❌ 內容太長了！請限制在500字以內".data

def msgTooLongReaction : Str := "❌ 消息太長無法分析！請限制在500字以內".data

def msgSendFail (e : Str) : Str := "❌ 發送分析結果失敗: ".data ++ e

def msgAnalyzingImage : Str := "🔍 正在分析圖片笑點...".data

def msgAnalyzingText : Str := "🔍 正在分析笑話...".data

def titleCommandImage : Str := "🤖 圖片笑話分析報告".data

def titleCommandText : Str := "🤖 笑話分析報告".data

def titleAutoImage : Str := "🤖 自動圖片笑點分析".data

def titleAutoText : Str := "🤖 自動笑點分析".data

/-- The image-extension list of line 126. -/
def imageExts : List Str := [".jpg".data, ".jpeg".data, ".png".data, ".gif".data]

/-- The classifying condition of line 126:
`content.startswith("http") and any(content.lower().endswith(ext) for ext in [...])`. -/
def isImageUrl (content : Str) : Bool :=
  pyStartsWith content "http".data &&
    imageExts.any (fun ext => pyEndsWith (pyLower content) ext)

inductive ContentKind where
  | Image
  | Text
  deriving DecidableEq, Repr

/-- The content classifier: the branch taken at line 126. -/
def classify (content : Str) : ContentKind :=
  if isImageUrl content then ContentKind.Image else ContentKind.Text

/-- `analyze_text_joke` (lines 44-76).
The environment `response` is what the single outbound HTTP call yields:
`Except.error e` models a raised transport exception (caught at line 74),
`Except.ok r` a received response. Returns the result string and the trace. -/
def analyze_text_joke (deepseek_api_key : Option Str) (content : Str)
    (response : Except Str Response) : Str × List Event :=
  match deepseek_api_key with
  | none => (msgNoDeepSeekKey, [])
  | some _ =>
    match response with
    | Except.error e => (msgTextFail e, [Event.textApiCall content])
    | Except.ok r =>
      if r.status ≠ 200 then (msgApiError r.status, [Event.textApiCall content])
      else (pyStrip r.content, [Event.textApiCall content])

def max_retries : Nat := 3

/-- The retry loop body of `analyze_image_joke` (lines 100-113).
`outcomes i` is what the MiniMax call raises or returns on attempt `i`
(0-based, as Python `range`). `remaining` is the number of loop iterations
still available (`max_retries - attempt`); the loop of the source always
has iterations remaining when entered, so the `0` case is unreachable.
Returns the loop result (`Except.error` models the re-raise of line 113)
together with the trace of calls and sleeps. -/
def retryGo (outcomes : Nat → Except Str Str) (url : Str) :
    Nat → Nat → Except Str Str × List Event
  | _, 0 => (Except.error [], [])
  | attempt, remaining + 1 =>
    match outcomes attempt with
    | Except.ok content => (Except.ok content, [Event.imageApiCall url])
    | Except.error e =>
      if attempt < max_retries - 1 then
        let r := retryGo outcomes url (attempt + 1) remaining
        (r.1, Event.imageApiCall url :: Event.sleep 2 :: r.2)
      else (Except.error e, [Event.imageApiCall url])

/-- `analyze_image_joke` (lines 78-116). `minimax_client` is whether the
client was configured (true iff `MINIMAX_API_KEY` was present, lines 26-33). -/
def analyze_image_joke (minimax_client : Bool) (image_url : Str)
    (outcomes : Nat → Except Str Str) : Str × List Event :=
  if minimax_client = false then (msgNoMiniMaxKey, [])
  else
    match retryGo outcomes image_url 0 max_retries with
    | (Except.ok content, tr) => (content, tr)
    | (Except.error e, tr) => (msgImageFail e, tr)

/-- Environment of one invocation: backend configuration and what the
network would deliver. -/
structure Env where
  deepseek_api_key : Option Str
  minimax_client : Bool
  textResponse : Except Str Response
  imageOutcomes : Nat → Except Str Str
  replyOk : Bool
  replyErr : Str

/-- The embed built at lines 139-145 of `analyze_joke_command`. -/
def mkCommandEmbed (title analysis content : Str) : Embed :=
  { title := title
    description := pySlice analysis 2000
    fields := [("原始內容".data, "```".data ++ pySlice content 200 ++ "...```".data)]
    image := none
    footer := some "由 Mortis AI 提供分析".data
    author := none }

/-- `analyze_joke_command` (lines 118-146): classification, dispatch,
length guard, embed construction. Returns the event trace. -/
def analyze_joke_command (env : Env) (content : Str) : List Event :=
  if isImageUrl content then
    let r := analyze_image_joke env.minimax_client content env.imageOutcomes
    Event.send msgAnalyzingImage :: r.2 ++
      [Event.sendEmbed (mkCommandEmbed titleCommandImage r.1 content)]
  else if content.length > 500 then
    [Event.send msgTooLongCommand]
  else
    let r := analyze_text_joke env.deepseek_api_key content env.textResponse
    Event.send msgAnalyzingText :: r.2 ++
      [Event.sendEmbed (mkCommandEmbed titleCommandText r.1 content)]

structure Attachment where
  content_type : Option Str
  url : Str
  deriving DecidableEq, Repr

structure Message where
  content : Str
  attachments : List Attachment
  jump_url : Str
  deriving DecidableEq, Repr

structure DUser where
  bot : Bool
  display_name : Str
  deriving DecidableEq, Repr

structure Reaction where
  emoji : Str
  deriving DecidableEq, Repr

/-- The condition of line 176:
`attachment.content_type and attachment.content_type.startswith('image')`
(`None` and the empty string are falsy). -/
def attachmentIsImage (a : Attachment) : Bool :=
  match a.content_type with
  | none => false
  | some ct => pyStartsWith ct "image".data

/-- The embed built at lines 197-221 of `on_reaction_add`. -/
def mkReactionEmbed (title analysis : Str) (is_image : Bool)
    (content_source jump_url : Str) (user : DUser) : Embed :=
  { title := title
    description := pySlice analysis 2000
    fields :=
      if is_image then
        [("原始圖片".data, "[跳轉到消息](".data ++ jump_url ++ ")".data)]
      else
        [("原始消息".data,
          pySlice content_source 150 ++ "...".data ++ "\n".data ++
            "[跳轉到消息](".data ++ jump_url ++ ")".data)]
    image := if is_image then some content_source else none
    footer := none
    author := some (user.display_name ++ " 要求分析".data) }

/-- Lines 223-230: `message.reply(embed=embed)` under try/except, then the
`finally` that removes the 🔍 reaction. `env.replyOk` is whether the
platform accepts the reply; on failure, the except branch replies with a
diagnostic instead. -/
def finishReply (env : Env) (e : Embed) : List Event :=
  (if env.replyOk then [Event.replyEmbed e]
   else [Event.reply (msgSendFail env.replyErr)]) ++
    [Event.removeReaction magnifier]

/-- `on_reaction_add` (lines 148-230). Returns the event trace of one
invocation of the listener. -/
def on_reaction_add (env : Env) (reaction : Reaction) (user : DUser)
    (message : Message) : List Event :=
  if user.bot then []
  else if reaction.emoji ≠ EMOJI_TRIGGER then []
  else if message.content = [] ∧ message.attachments = [] then []
  else
    Event.addReaction magnifier ::
      match message.attachments with
      | attachment :: _ =>
        if attachmentIsImage attachment then
          let r := analyze_image_joke env.minimax_client attachment.url env.imageOutcomes
          r.2 ++ finishReply env
            (mkReactionEmbed titleAutoImage r.1 true attachment.url message.jump_url user)
        else
          finishReply env
            (mkReactionEmbed [] [] false [] message.jump_url user)
      | [] =>
        if message.content ≠ [] then
          if message.content.length > 500 then
            [Event.reply msgTooLongReaction, Event.removeReaction magnifier]
          else
            let r := analyze_text_joke env.deepseek_api_key message.content env.textResponse
            r.2 ++ finishReply env
              (mkReactionEmbed titleAutoText r.1 false message.content message.jump_url user)
        else
          [Event.removeReaction magnifier]

/-! ### Helper lemmas -/

/-- Is the event a call to the image backend? -/
def Event.isImageCall : Event → Bool
  | Event.imageApiCall _ => true
  | _ => false

theorem startsWith_https_startsWith_http (c : Str)
    (h : pyStartsWith c "https".data = true) :
    pyStartsWith c "http".data = true := by
  simp only [pyStartsWith, List.isPrefixOf_iff_prefix] at *
  exact List.IsPrefix.trans ⟨['s'], rfl⟩ h

theorem pyStartsWith_append (p s t : Str) (h : pyStartsWith s p = true) :
    pyStartsWith (s ++ t) p = true := by
  simp only [pyStartsWith, List.isPrefixOf_iff_prefix] at *
  exact List.IsPrefix.trans h (List.prefix_append s t)

theorem pyStartsWith_slice2000 (r : Str) (h : pyStartsWith r "❌".data = true) :
    pyStartsWith (pySlice r 2000) "❌".data = true := by
  simp only [pyStartsWith, pySlice, List.isPrefixOf_iff_prefix] at *
  exact List.prefix_take_iff.mpr ⟨h, by decide⟩

/-- The condition of line 126 coincides with the spec's classifying
condition (http/https prefix, one of the four suffixes on the lowercase). -/
def isImageUrlSpec (content : Str) : Bool :=
  (pyStartsWith content "http".data || pyStartsWith content "https".data) &&
    (pyEndsWith (pyLower content) ".jpg".data ||
     pyEndsWith (pyLower content) ".jpeg".data ||
     pyEndsWith (pyLower content) ".png".data ||
     pyEndsWith (pyLower content) ".gif".data)

theorem isImageUrl_eq_spec (c : Str) : isImageUrl c = isImageUrlSpec c := by
  unfold isImageUrl isImageUrlSpec imageExts
  simp only [List.any_cons, List.any_nil, Bool.or_false]
  cases ha : pyStartsWith c "http".data <;> cases hb : pyStartsWith c "https".data
  · simp
  · exact absurd (startsWith_https_startsWith_http c hb) (by simp [ha])
  · simp [Bool.or_assoc]
  · simp [Bool.or_assoc]

/-- The trace of the text analyzer is empty or a single text-backend call. -/
theorem analyze_text_trace (k : Option Str) (c : Str) (r : Except Str Response) :
    (analyze_text_joke k c r).2 = [] ∨
      (analyze_text_joke k c r).2 = [Event.textApiCall c] := by
  unfold analyze_text_joke
  cases k
  · exact Or.inl rfl
  · cases r
    · exact Or.inr rfl
    · dsimp only
      split <;> exact Or.inr rfl

/-- When every attempt raises, the retry loop makes exactly three calls,
sleeping 2 between consecutive ones, and re-raises the last error. -/
theorem retryGo_all_fail (outcomes : Nat → Except Str Str) (url : Str)
    (errs : Nat → Str) (h : ∀ i, outcomes i = Except.error (errs i)) :
    retryGo outcomes url 0 max_retries =
      (Except.error (errs 2),
       [Event.imageApiCall url, Event.sleep 2, Event.imageApiCall url,
        Event.sleep 2, Event.imageApiCall url]) := by
  simp [retryGo, max_retries, h]

/-- `analyze_image_joke` under total backend failure: the guarded retry
returns the diagnostic and the three-call trace. -/
theorem analyze_image_all_fail (outcomes : Nat → Except Str Str) (url : Str)
    (errs : Nat → Str) (h : ∀ i, outcomes i = Except.error (errs i)) :
    analyze_image_joke true url outcomes =
      (msgImageFail (errs 2),
       [Event.imageApiCall url, Event.sleep 2, Event.imageApiCall url,
        Event.sleep 2, Event.imageApiCall url]) := by
  unfold analyze_image_joke
  rw [retryGo_all_fail outcomes url errs h]
  rfl

/-- Every event of the retry loop's trace is a call to the given url or a
2-unit sleep. -/
theorem retryGo_trace_events (outcomes : Nat → Except Str Str) (url : Str)
    (attempt remaining : Nat) :
    ∀ e ∈ (retryGo outcomes url attempt remaining).2,
      e = Event.imageApiCall url ∨ e = Event.sleep 2 := by
  induction remaining generalizing attempt with
  | zero => intro e he; simp [retryGo] at he
  | succ n ih =>
    intro e he
    rw [retryGo] at he
    rcases houtcome : outcomes attempt with err | ok <;> rw [houtcome] at he
    · by_cases hlt : attempt < max_retries - 1
      · simp only [if_pos hlt, List.mem_cons] at he
        rcases he with h1 | h1 | h1
        · exact Or.inl h1
        · exact Or.inr h1
        · exact ih (attempt + 1) e h1
      · simp only [if_neg hlt, List.mem_singleton] at he
        exact Or.inl he
    · simp only [List.mem_singleton] at he
      exact Or.inl he

/-- Every event of the image analyzer's trace is a call to the given url
or a 2-unit sleep. -/
theorem analyze_image_trace_events (m : Bool) (url : Str)
    (outcomes : Nat → Except Str Str) :
    ∀ e ∈ (analyze_image_joke m url outcomes).2,
      e = Event.imageApiCall url ∨ e = Event.sleep 2 := by
  intro e he
  unfold analyze_image_joke at he
  by_cases hm : m = false
  · simp [hm] at he
  · rw [if_neg hm] at he
    rcases hr : retryGo outcomes url 0 max_retries with ⟨res, tr⟩
    have := retryGo_trace_events outcomes url 0 max_retries e
    rw [hr] at this
    rcases res with err | ok <;> rw [hr] at he <;> exact this he

/-- A user-visible message event whose text carries the ❌ failure marker. -/
def isDiagnostic : Event → Bool
  | Event.send t => pyStartsWith t "❌".data
  | Event.reply t => pyStartsWith t "❌".data
  | Event.sendEmbed em => pyStartsWith em.description "❌".data
  | Event.replyEmbed em => pyStartsWith em.description "❌".data
  | _ => false

/-- The reply-and-cleanup tail always carries a user-visible diagnostic
whenever the embed's description starts with the failure marker. -/
theorem finishReply_diag (env : Env) (e : Embed)
    (h : pyStartsWith e.description "❌".data = true) :
    ∃ ev ∈ finishReply env e, isDiagnostic ev = true := by
  unfold finishReply
  by_cases hr : env.replyOk
  · exact ⟨Event.replyEmbed e, by simp [hr], h⟩
  · refine ⟨Event.reply (msgSendFail env.replyErr), by simp [hr], ?_⟩
    exact pyStartsWith_append "❌".data "❌ 發送分析結果失敗: ".data env.replyErr (by decide)

/-- Shape of the command trace on the image branch. -/
theorem command_image_trace (env : Env) (content : Str)
    (h : isImageUrl content = true) :
    analyze_joke_command env content =
      Event.send msgAnalyzingImage ::
        (analyze_image_joke env.minimax_client content env.imageOutcomes).2 ++
        [Event.sendEmbed (mkCommandEmbed titleCommandImage
          (analyze_image_joke env.minimax_client content env.imageOutcomes).1 content)] := by
  simp [analyze_joke_command, h]

/-- Shape of the command trace on the rejected over-length text branch. -/
theorem command_toolong_trace (env : Env) (content : Str)
    (h : isImageUrl content = false) (hlen : content.length > 500) :
    analyze_joke_command env content = [Event.send msgTooLongCommand] := by
  simp [analyze_joke_command, h, hlen]

/-- Shape of the command trace on the accepted text branch. -/
theorem command_text_trace (env : Env) (content : Str)
    (h : isImageUrl content = false) (hlen : ¬ content.length > 500) :
    analyze_joke_command env content =
      Event.send msgAnalyzingText ::
        (analyze_text_joke env.deepseek_api_key content env.textResponse).2 ++
        [Event.sendEmbed (mkCommandEmbed titleCommandText
          (analyze_text_joke env.deepseek_api_key content env.textResponse).1 content)] := by
  simp [analyze_joke_command, h, hlen]

/-- Shape of the reaction trace on the accepted text branch. -/
theorem reaction_text_trace (env : Env) (reaction : Reaction) (user : DUser)
    (message : Message) (hb : user.bot = false)
    (he : reaction.emoji = EMOJI_TRIGGER) (ha : message.attachments = [])
    (hc : message.content ≠ []) (hlen : ¬ message.content.length > 500) :
    on_reaction_add env reaction user message =
      Event.addReaction magnifier ::
        (analyze_text_joke env.deepseek_api_key message.content env.textResponse).2 ++
        finishReply env (mkReactionEmbed titleAutoText
          (analyze_text_joke env.deepseek_api_key message.content env.textResponse).1
          false message.content message.jump_url user) := by
  simp [on_reaction_add, hb, he, ha, hc, hlen]

/-- Shape of the reaction trace on the rejected over-length text branch. -/
theorem reaction_toolong_trace (env : Env) (reaction : Reaction) (user : DUser)
    (message : Message) (hb : user.bot = false)
    (he : reaction.emoji = EMOJI_TRIGGER) (ha : message.attachments = [])
    (hlen : message.content.length > 500) :
    on_reaction_add env reaction user message =
      [Event.addReaction magnifier, Event.reply msgTooLongReaction,
       Event.removeReaction magnifier] := by
  have hc : message.content ≠ [] := by
    intro hnil
    rw [hnil] at hlen
    simp at hlen
  simp [on_reaction_add, hb, he, ha, hc, hlen]

/-- Shape of the reaction trace when the first attachment is an image. -/
theorem reaction_image_trace (env : Env) (reaction : Reaction) (user : DUser)
    (message : Message) (a : Attachment) (l : List Attachment)
    (hb : user.bot = false) (he : reaction.emoji = EMOJI_TRIGGER)
    (ha : message.attachments = a :: l) (hi : attachmentIsImage a = true) :
    on_reaction_add env reaction user message =
      Event.addReaction magnifier ::
        (analyze_image_joke env.minimax_client a.url env.imageOutcomes).2 ++
        finishReply env (mkReactionEmbed titleAutoImage
          (analyze_image_joke env.minimax_client a.url env.imageOutcomes).1
          true a.url message.jump_url user) := by
  simp [on_reaction_add, hb, he, ha, hi]

/-- Shape of the reaction trace when the first attachment is not an image:
no analysis runs and an empty-titled, empty-description embed is replied. -/
theorem reaction_notimage_trace (env : Env) (reaction : Reaction) (user : DUser)
    (message : Message) (a : Attachment) (l : List Attachment)
    (hb : user.bot = false) (he : reaction.emoji = EMOJI_TRIGGER)
    (ha : message.attachments = a :: l) (hi : attachmentIsImage a = false) :
    on_reaction_add env reaction user message =
      Event.addReaction magnifier ::
        finishReply env (mkReactionEmbed [] [] false [] message.jump_url user) := by
  simp [on_reaction_add, hb, he, ha, hi]

/-- A concrete environment used to instantiate hypotheses at witnesses. -/
def envA : Env :=
  { deepseek_api_key := none
    minimax_client := false
    textResponse := Except.error []
    imageOutcomes := fun _ => Except.error []
    replyOk := true
    replyErr := [] }

/-! ### Claims -/

/-- C1: a string passed to the analyzejoke command is classified as Image
iff it starts with an HTTP(S) scheme prefix and its lowercase form ends in
one of .jpg/.jpeg/.png/.gif; every other string is classified as Text and
the command then never calls the image backend (text routing). -/
theorem C1_classifier_matches_spec (c : Str) :
    (classify c = ContentKind.Image ↔ isImageUrlSpec c = true) ∧
    (classify c = ContentKind.Text ↔ isImageUrlSpec c = false) ∧
    (classify c = ContentKind.Text →
      ∀ env : Env, ∀ e ∈ analyze_joke_command env c, e.isImageCall = false) := by
  have hk := isImageUrl_eq_spec c
  refine ⟨?_, ?_, ?_⟩
  · unfold classify
    rw [hk]
    cases hspec : isImageUrlSpec c <;> simp
  · unfold classify
    rw [hk]
    cases hspec : isImageUrlSpec c <;> simp
  · intro ht env e he
    have hf : isImageUrl c = false := by
      cases hu : isImageUrl c
      · rfl
      · rw [classify, hu] at ht
        simp at ht
    by_cases hlen : c.length > 500
    · rw [command_toolong_trace env c hf hlen] at he
      simp at he
      simp [he, Event.isImageCall]
    · rw [command_text_trace env c hf hlen] at he
      rcases analyze_text_trace env.deepseek_api_key c env.textResponse with h2 | h2
      · rw [h2] at he
        simp at he
        rcases he with he | he <;> simp [he, Event.isImageCall]
      · rw [h2] at he
        simp at he
        rcases he with he | he | he <;> simp [he, Event.isImageCall]

theorem C1_witness : (Event.send msgAnalyzingText).isImageCall = false :=
  (C1_classifier_matches_spec "hello".data).2.2 (by decide) envA
    (Event.send msgAnalyzingText) (by decide)

/-- C8: the classifier is a deterministic total function of the input
string: equal inputs classify equally, and every input yields a
classification (Image or Text), so it cannot fail. -/
theorem C8_classifier_pure :
    (∀ c₁ c₂ : Str, c₁ = c₂ → classify c₁ = classify c₂) ∧
    (∀ c : Str, classify c = ContentKind.Image ∨ classify c = ContentKind.Text) := by
  constructor
  · intro c₁ c₂ h
    rw [h]
  · intro c
    unfold classify
    cases isImageUrl c
    · exact Or.inr rfl
    · exact Or.inl rfl

theorem C8_witness :
    classify "a".data = classify "a".data ∧
      (classify "a".data = ContentKind.Image ∨ classify "a".data = ContentKind.Text) :=
  ⟨C8_classifier_pure.1 "a".data "a".data rfl, C8_classifier_pure.2 "a".data⟩

/-- C5: an absent credential short-circuits each analyzer to its
missing-credential diagnostic with an empty trace (no network call). -/
theorem C5_missing_credential (content url : Str) (resp : Except Str Response)
    (outcomes : Nat → Except Str Str) :
    analyze_text_joke none content resp = (msgNoDeepSeekKey, []) ∧
    analyze_image_joke false url outcomes = (msgNoMiniMaxKey, []) :=
  ⟨rfl, rfl⟩

/-- C4: on a non-200 response, the text path returns a failure result
containing the status code, after exactly one backend call (no retry). -/
theorem C4_text_non200 (k content : Str) (r : Response) (h : r.status ≠ 200) :
    analyze_text_joke (some k) content (Except.ok r) =
      (msgApiError r.status, [Event.textApiCall content]) ∧
    natStr r.status <:+: msgApiError r.status := by
  constructor
  · simp [analyze_text_joke, h]
  · exact ⟨"❌ API錯誤 (狀態碼: ".data, ")".data, rfl⟩

theorem C4_witness :
    analyze_text_joke (some ['k']) ['j'] (Except.ok ⟨500, []⟩) =
      (msgApiError 500, [Event.textApiCall ['j']]) ∧
    natStr 500 <:+: msgApiError 500 :=
  C4_text_non200 ['k'] ['j'] ⟨500, []⟩ (by decide)

/-- C2: when the image backend fails on every attempt, the dispatcher makes
exactly 3 calls with a 2-unit sleep between consecutive ones and returns a
diagnostic failure string (the last error wrapped) instead of raising. -/
theorem C2_image_retry_exhaustion (url : Str) (outcomes : Nat → Except Str Str)
    (errs : Nat → Str) (h : ∀ i, outcomes i = Except.error (errs i)) :
    analyze_image_joke true url outcomes =
      (msgImageFail (errs 2),
       [Event.imageApiCall url, Event.sleep 2, Event.imageApiCall url,
        Event.sleep 2, Event.imageApiCall url]) ∧
    pyStartsWith (msgImageFail (errs 2)) "❌".data = true := by
  refine ⟨analyze_image_all_fail outcomes url errs h, ?_⟩
  exact pyStartsWith_append "❌".data "❌ 圖片分析失敗: ".data (errs 2) (by decide)

theorem C2_witness :
    analyze_image_joke true ['u'] (fun _ => Except.error ['e']) =
      (msgImageFail ['e'],
       [Event.imageApiCall ['u'], Event.sleep 2, Event.imageApiCall ['u'],
        Event.sleep 2, Event.imageApiCall ['u']]) ∧
    pyStartsWith (msgImageFail ['e']) "❌".data = true :=
  C2_image_retry_exhaustion ['u'] (fun _ => Except.error ['e']) (fun _ => ['e'])
    (fun _ => rfl)

/-- C6: both presentation objects attach a description of length at most
2000: exactly `min` of the result length and the bound, a prefix of the
result, and equal to the result when it is within the bound. -/
theorem C6_description_truncation (t a c cs ju : Str) (b : Bool) (u : DUser) :
    ((mkCommandEmbed t a c).description.length = min a.length 2000 ∧
     (mkCommandEmbed t a c).description <+: a ∧
     (a.length ≤ 2000 → (mkCommandEmbed t a c).description = a)) ∧
    ((mkReactionEmbed t a b cs ju u).description.length = min a.length 2000 ∧
     (mkReactionEmbed t a b cs ju u).description <+: a ∧
     (a.length ≤ 2000 → (mkReactionEmbed t a b cs ju u).description = a)) := by
  have h1 : (pySlice a 2000).length = min a.length 2000 := by
    simp [pySlice, List.length_take, Nat.min_comm]
  have h2 : pySlice a 2000 <+: a := List.take_prefix 2000 a
  have h3 : a.length ≤ 2000 → pySlice a 2000 = a := fun h => List.take_of_length_le h
  exact ⟨⟨h1, h2, h3⟩, ⟨h1, h2, h3⟩⟩

theorem C6_witness :
    (mkCommandEmbed [] ['x'] []).description = ['x'] ∧
      (mkReactionEmbed [] ['x'] false [] [] ⟨false, []⟩).description = ['x'] :=
  ⟨(C6_description_truncation [] ['x'] [] [] [] false ⟨false, []⟩).1.2.2 (by decide),
   (C6_description_truncation [] ['x'] [] [] [] false ⟨false, []⟩).2.2.2 (by decide)⟩

/-- C3: a text-classified input longer than 500 is rejected with a
user-facing message by both entry points, with no backend call (the
traces carry no backend event). -/
theorem C3_input_size_guard (env : Env) (content : Str)
    (reaction : Reaction) (user : DUser) (message : Message)
    (hc : classify content = ContentKind.Text) (hlen : content.length > 500)
    (hb : user.bot = false) (he : reaction.emoji = EMOJI_TRIGGER)
    (ha : message.attachments = []) (hml : message.content.length > 500) :
    analyze_joke_command env content = [Event.send msgTooLongCommand] ∧
    on_reaction_add env reaction user message =
      [Event.addReaction magnifier, Event.reply msgTooLongReaction,
       Event.removeReaction magnifier] ∧
    (∀ e ∈ analyze_joke_command env content, e.isBackendCall = false) ∧
    (∀ e ∈ on_reaction_add env reaction user message, e.isBackendCall = false) := by
  have hf : isImageUrl content = false := by
    cases hu : isImageUrl content
    · rfl
    · rw [classify, hu] at hc
      simp at hc
  have h1 := command_toolong_trace env content hf hlen
  have h2 := reaction_toolong_trace env reaction user message hb he ha hml
  refine ⟨h1, h2, ?_, ?_⟩
  · intro e he'
    rw [h1] at he'
    simp at he'
    simp [he', Event.isBackendCall]
  · intro e he'
    rw [h2] at he'
    simp at he'
    rcases he' with he' | he' | he' <;> simp [he', Event.isBackendCall]

set_option maxRecDepth 4000 in
theorem C3_witness :
    analyze_joke_command envA (List.replicate 501 'a') = [Event.send msgTooLongCommand] ∧
    on_reaction_add envA ⟨EMOJI_TRIGGER⟩ ⟨false, []⟩
        ⟨List.replicate 501 'a', [], ['j']⟩ =
      [Event.addReaction magnifier, Event.reply msgTooLongReaction,
       Event.removeReaction magnifier] :=
  have h := C3_input_size_guard envA (List.replicate 501 'a') ⟨EMOJI_TRIGGER⟩
    ⟨false, []⟩ ⟨List.replicate 501 'a', [], ['j']⟩ (by decide) (by decide)
    rfl rfl rfl (by decide)
  ⟨h.1, h.2.1⟩

/-- C10: a reaction from a bot, with the wrong emoji, or on a message with
neither text nor attachments makes the listener return with an empty
trace: no backend call, no message, no reaction added. -/
theorem C10_guard_empty_trace (env : Env) (reaction : Reaction) (user : DUser)
    (message : Message)
    (h : user.bot = true ∨ reaction.emoji ≠ EMOJI_TRIGGER ∨
         (message.content = [] ∧ message.attachments = [])) :
    on_reaction_add env reaction user message = [] := by
  unfold on_reaction_add
  rcases h with h | h | h
  · simp [h]
  · by_cases hb : user.bot
    · simp [hb]
    · simp [hb, h]
  · by_cases hb : user.bot
    · simp [hb]
    · by_cases hem : reaction.emoji = EMOJI_TRIGGER
      · simp [hb, hem, h.1, h.2]
      · simp [hb, hem]

theorem C10_witness :
    on_reaction_add envA ⟨EMOJI_TRIGGER⟩ ⟨true, []⟩ ⟨['x'], [], ['j']⟩ = [] :=
  C10_guard_empty_trace envA ⟨EMOJI_TRIGGER⟩ ⟨true, []⟩ ⟨['x'], [], ['j']⟩
    (Or.inl rfl)

/-- Under an accepting platform, the reply tail is exactly the reply of the
embed followed by the reaction cleanup. -/
theorem finishReply_events (env : Env) (em : Embed) (hr : env.replyOk = true) :
    finishReply env em = [Event.replyEmbed em, Event.removeReaction magnifier] := by
  simp [finishReply, hr]

/-- C9: when the reacted message has an attachment, the text content never
reaches the text backend and only the first attachment's url is ever
called; when that attachment is not an image, no backend is called at all
yet an embed with empty title and empty description is still replied. -/
theorem C9_attachment_priority (env : Env) (reaction : Reaction) (user : DUser)
    (message : Message) (a : Attachment) (l : List Attachment)
    (hb : user.bot = false) (he : reaction.emoji = EMOJI_TRIGGER)
    (ha : message.attachments = a :: l) (hr : env.replyOk = true) :
    (∀ e ∈ on_reaction_add env reaction user message, e.isTextCall = false) ∧
    (∀ u : Str, Event.imageApiCall u ∈ on_reaction_add env reaction user message →
      u = a.url) ∧
    (attachmentIsImage a = false →
      (∀ e ∈ on_reaction_add env reaction user message, e.isBackendCall = false) ∧
      Event.replyEmbed (mkReactionEmbed [] [] false [] message.jump_url user) ∈
        on_reaction_add env reaction user message ∧
      (mkReactionEmbed [] [] false [] message.jump_url user).title = [] ∧
      (mkReactionEmbed [] [] false [] message.jump_url user).description = []) := by
  cases hi : attachmentIsImage a
  · have htr := reaction_notimage_trace env reaction user message a l hb he ha hi
    rw [finishReply_events env _ hr] at htr
    refine ⟨?_, ?_, ?_⟩
    · intro e he'
      rw [htr] at he'
      simp at he'
      rcases he' with he' | he' | he' <;> simp [he', Event.isTextCall]
    · intro u hu
      rw [htr] at hu
      simp at hu
    · intro _
      refine ⟨?_, ?_, rfl, rfl⟩
      · intro e he'
        rw [htr] at he'
        simp at he'
        rcases he' with he' | he' | he' <;> simp [he', Event.isBackendCall]
      · rw [htr]
        simp
  · have htr := reaction_image_trace env reaction user message a l hb he ha hi
    rw [finishReply_events env _ hr] at htr
    refine ⟨?_, ?_, ?_⟩
    · intro e he'
      rw [htr] at he'
      simp at he'
      rcases he' with he' | he' | he' | he'
      · simp [he', Event.isTextCall]
      · rcases analyze_image_trace_events env.minimax_client a.url env.imageOutcomes
          e he' with h' | h' <;> simp [h', Event.isTextCall]
      · simp [he', Event.isTextCall]
      · simp [he', Event.isTextCall]
    · intro u hu
      rw [htr] at hu
      simp only [List.mem_cons, List.mem_append, List.mem_singleton,
        List.not_mem_nil, or_false] at hu
      rcases hu with (h' | h') | h' | h'
      · exact absurd h' (by simp)
      · rcases analyze_image_trace_events env.minimax_client a.url env.imageOutcomes
          (Event.imageApiCall u) h' with h'' | h''
        · exact (Event.imageApiCall.injEq u a.url).mp h''
        · exact absurd h'' (by simp)
      · exact absurd h' (by simp)
      · exact absurd h' (by simp)
    · intro hfalse
      simp at hfalse

theorem C9_witness :
    Event.replyEmbed (mkReactionEmbed [] [] false [] ['j'] ⟨false, []⟩) ∈
      on_reaction_add envA ⟨EMOJI_TRIGGER⟩ ⟨false, []⟩
        ⟨['t'], [⟨none, ['u']⟩], ['j']⟩ :=
  ((C9_attachment_priority envA ⟨EMOJI_TRIGGER⟩ ⟨false, []⟩
      ⟨['t'], [⟨none, ['u']⟩], ['j']⟩ ⟨none, ['u']⟩ [] rfl rfl rfl rfl).2.2 rfl).2.1

/-- A trace containing a diagnostic event satisfies the `any` check. -/
theorem any_diag_of_mem {l : List Event} {e : Event} (he : e ∈ l)
    (h : isDiagnostic e = true) : l.any isDiagnostic = true :=
  List.any_eq_true.mpr ⟨e, he, h⟩

theorem text_result_diag_nokey (c : Str) (r : Except Str Response) :
    pyStartsWith (analyze_text_joke none c r).1 "❌".data = true := by
  show pyStartsWith msgNoDeepSeekKey "❌".data = true
  decide

theorem text_result_diag_transport (k c err : Str) :
    pyStartsWith (analyze_text_joke (some k) c (Except.error err)).1 "❌".data = true :=
  pyStartsWith_append "❌".data "❌ 分析失敗: ".data err (by decide)

theorem text_result_diag_non200 (k c : Str) (r : Response) (h : r.status ≠ 200) :
    pyStartsWith (analyze_text_joke (some k) c (Except.ok r)).1 "❌".data = true := by
  have h1 : (analyze_text_joke (some k) c (Except.ok r)).1 = msgApiError r.status := by
    simp [analyze_text_joke, h]
  rw [h1]
  exact pyStartsWith_append "❌".data ("❌ API錯誤 (狀態碼: ".data ++ natStr r.status)
    ")".data
    (pyStartsWith_append "❌".data "❌ API錯誤 (狀態碼: ".data (natStr r.status)
      (by decide))

theorem image_result_diag_nokey (u : Str) (o : Nat → Except Str Str) :
    pyStartsWith (analyze_image_joke false u o).1 "❌".data = true := by
  show pyStartsWith msgNoMiniMaxKey "❌".data = true
  decide

theorem image_result_diag_allfail (u : Str) (o : Nat → Except Str Str)
    (errs : Nat → Str) (h : ∀ i, o i = Except.error (errs i)) :
    pyStartsWith (analyze_image_joke true u o).1 "❌".data = true := by
  rw [analyze_image_all_fail o u errs h]
  exact pyStartsWith_append "❌".data "❌ 圖片分析失敗: ".data (errs 2) (by decide)

/-- The command trace carries a diagnostic once the embed's description
starts with the failure marker. -/
theorem command_tail_diag {tr : List Event} {s : Str} {em : Embed}
    (h : pyStartsWith em.description "❌".data = true) :
    (Event.send s :: tr ++ [Event.sendEmbed em]).any isDiagnostic = true :=
  any_diag_of_mem
    (List.mem_cons_of_mem _ (List.mem_append_right tr (List.mem_singleton_self _))) h

/-- The reaction trace carries a diagnostic once the embed's description
starts with the failure marker (whether or not the platform accepts the
reply). -/
theorem reaction_tail_diag {env : Env} {tr : List Event} {em : Embed}
    (h : pyStartsWith em.description "❌".data = true) :
    (Event.addReaction magnifier :: tr ++ finishReply env em).any isDiagnostic
      = true := by
  obtain ⟨ev, hev, hdiag⟩ := finishReply_diag env em h
  exact any_diag_of_mem (List.mem_cons_of_mem _ (List.mem_append_right tr hev)) hdiag

/-- C7: each error of the taxonomy — missing credential, remote non-success
status, transport failure, over-large input — is recovered locally by both
entry points into a trace carrying a user-visible ❌ diagnostic (a sent or
replied text, or an embed description). The embedded handlers are total
functions of their environment, reflecting that the source's try/except
blocks consume every such error rather than letting it escape. -/
theorem C7_taxonomy_recovered :
    (∀ (env : Env) (c : Str), env.deepseek_api_key = none →
      isImageUrl c = false → ¬ c.length > 500 →
      (analyze_joke_command env c).any isDiagnostic = true) ∧
    (∀ (env : Env) (c k : Str) (r : Response), env.deepseek_api_key = some k →
      env.textResponse = Except.ok r → r.status ≠ 200 →
      isImageUrl c = false → ¬ c.length > 500 →
      (analyze_joke_command env c).any isDiagnostic = true) ∧
    (∀ (env : Env) (c k err : Str), env.deepseek_api_key = some k →
      env.textResponse = Except.error err →
      isImageUrl c = false → ¬ c.length > 500 →
      (analyze_joke_command env c).any isDiagnostic = true) ∧
    (∀ (env : Env) (c : Str), env.minimax_client = false → isImageUrl c = true →
      (analyze_joke_command env c).any isDiagnostic = true) ∧
    (∀ (env : Env) (c : Str) (errs : Nat → Str), env.minimax_client = true →
      (∀ i, env.imageOutcomes i = Except.error (errs i)) → isImageUrl c = true →
      (analyze_joke_command env c).any isDiagnostic = true) ∧
    (∀ (env : Env) (c : Str), isImageUrl c = false → c.length > 500 →
      (analyze_joke_command env c).any isDiagnostic = true) ∧
    (∀ (env : Env) (reaction : Reaction) (user : DUser) (message : Message),
      user.bot = false → reaction.emoji = EMOJI_TRIGGER →
      message.attachments = [] → message.content ≠ [] →
      ¬ message.content.length > 500 → env.deepseek_api_key = none →
      (on_reaction_add env reaction user message).any isDiagnostic = true) ∧
    (∀ (env : Env) (reaction : Reaction) (user : DUser) (message : Message)
      (k : Str) (r : Response),
      user.bot = false → reaction.emoji = EMOJI_TRIGGER →
      message.attachments = [] → message.content ≠ [] →
      ¬ message.content.length > 500 → env.deepseek_api_key = some k →
      env.textResponse = Except.ok r → r.status ≠ 200 →
      (on_reaction_add env reaction user message).any isDiagnostic = true) ∧
    (∀ (env : Env) (reaction : Reaction) (user : DUser) (message : Message)
      (k err : Str),
      user.bot = false → reaction.emoji = EMOJI_TRIGGER →
      message.attachments = [] → message.content ≠ [] →
      ¬ message.content.length > 500 → env.deepseek_api_key = some k →
      env.textResponse = Except.error err →
      (on_reaction_add env reaction user message).any isDiagnostic = true) ∧
    (∀ (env : Env) (reaction : Reaction) (user : DUser) (message : Message)
      (a : Attachment) (l : List Attachment),
      user.bot = false → reaction.emoji = EMOJI_TRIGGER →
      message.attachments = a :: l → attachmentIsImage a = true →
      env.minimax_client = false →
      (on_reaction_add env reaction user message).any isDiagnostic = true) ∧
    (∀ (env : Env) (reaction : Reaction) (user : DUser) (message : Message)
      (a : Attachment) (l : List Attachment) (errs : Nat → Str),
      user.bot = false → reaction.emoji = EMOJI_TRIGGER →
      message.attachments = a :: l → attachmentIsImage a = true →
      env.minimax_client = true →
      (∀ i, env.imageOutcomes i = Except.error (errs i)) →
      (on_reaction_add env reaction user message).any isDiagnostic = true) ∧
    (∀ (env : Env) (reaction : Reaction) (user : DUser) (message : Message),
      user.bot = false → reaction.emoji = EMOJI_TRIGGER →
      message.attachments = [] → message.content.length > 500 →
      (on_reaction_add env reaction user message).any isDiagnostic = true) := by
  refine ⟨?_, ?_, ?_, ?_, ?_, ?_, ?_, ?_, ?_, ?_, ?_, ?_⟩
  · intro env c hkey hf hlen
    rw [command_text_trace env c hf hlen]
    exact command_tail_diag (pyStartsWith_slice2000 _
      (by rw [hkey]; exact text_result_diag_nokey c env.textResponse))
  · intro env c k r hkey hresp hst hf hlen
    rw [command_text_trace env c hf hlen]
    exact command_tail_diag (pyStartsWith_slice2000 _
      (by rw [hkey, hresp]; exact text_result_diag_non200 k c r hst))
  · intro env c k err hkey hresp hf hlen
    rw [command_text_trace env c hf hlen]
    exact command_tail_diag (pyStartsWith_slice2000 _
      (by rw [hkey, hresp]; exact text_result_diag_transport k c err))
  · intro env c hm hi
    rw [command_image_trace env c hi]
    exact command_tail_diag (pyStartsWith_slice2000 _
      (by rw [hm]; exact image_result_diag_nokey c env.imageOutcomes))
  · intro env c errs hm hall hi
    rw [command_image_trace env c hi]
    exact command_tail_diag (pyStartsWith_slice2000 _
      (by rw [hm]; exact image_result_diag_allfail c env.imageOutcomes errs hall))
  · intro env c hf hlen
    rw [command_toolong_trace env c hf hlen]
    decide
  · intro env reaction user message hb he ha hc hlen hkey
    rw [reaction_text_trace env reaction user message hb he ha hc hlen]
    exact reaction_tail_diag (pyStartsWith_slice2000 _
      (by rw [hkey]; exact text_result_diag_nokey message.content env.textResponse))
  · intro env reaction user message k r hb he ha hc hlen hkey hresp hst
    rw [reaction_text_trace env reaction user message hb he ha hc hlen]
    exact reaction_tail_diag (pyStartsWith_slice2000 _
      (by rw [hkey, hresp]; exact text_result_diag_non200 k message.content r hst))
  · intro env reaction user message k err hb he ha hc hlen hkey hresp
    rw [reaction_text_trace env reaction user message hb he ha hc hlen]
    exact reaction_tail_diag (pyStartsWith_slice2000 _
      (by rw [hkey, hresp]; exact text_result_diag_transport k message.content err))
  · intro env reaction user message a l hb he ha hi hm
    rw [reaction_image_trace env reaction user message a l hb he ha hi]
    exact reaction_tail_diag (pyStartsWith_slice2000 _
      (by rw [hm]; exact image_result_diag_nokey a.url env.imageOutcomes))
  · intro env reaction user message a l errs hb he ha hi hm hall
    rw [reaction_image_trace env reaction user message a l hb he ha hi]
    exact reaction_tail_diag (pyStartsWith_slice2000 _
      (by rw [hm]; exact image_result_diag_allfail a.url env.imageOutcomes errs hall))
  · intro env reaction user message hb he ha hlen
    rw [reaction_toolong_trace env reaction user message hb he ha hlen]
    decide

/-- Concrete environment: key present, remote replies with status 500. -/
def envB : Env :=
  { deepseek_api_key := some ['k']
    minimax_client := true
    textResponse := Except.ok ⟨500, []⟩
    imageOutcomes := fun _ => Except.error ['e']
    replyOk := true
    replyErr := [] }

/-- Concrete environment: key present, transport raises; no image client. -/
def envC : Env :=
  { deepseek_api_key := some ['k']
    minimax_client := false
    textResponse := Except.error ['e']
    imageOutcomes := fun _ => Except.error ['e']
    replyOk := true
    replyErr := [] }

set_option maxRecDepth 4000 in
theorem C7_witness :
    (analyze_joke_command envA ['t']).any isDiagnostic = true ∧
    (analyze_joke_command envB ['t']).any isDiagnostic = true ∧
    (analyze_joke_command envC ['t']).any isDiagnostic = true ∧
    (analyze_joke_command envC "http://a.jpg".data).any isDiagnostic = true ∧
    (analyze_joke_command envB "http://a.jpg".data).any isDiagnostic = true ∧
    (analyze_joke_command envA (List.replicate 501 'a')).any isDiagnostic = true ∧
    (on_reaction_add envA ⟨EMOJI_TRIGGER⟩ ⟨false, []⟩
      ⟨['t'], [], ['j']⟩).any isDiagnostic = true ∧
    (on_reaction_add envB ⟨EMOJI_TRIGGER⟩ ⟨false, []⟩
      ⟨['t'], [], ['j']⟩).any isDiagnostic = true ∧
    (on_reaction_add envC ⟨EMOJI_TRIGGER⟩ ⟨false, []⟩
      ⟨['t'], [], ['j']⟩).any isDiagnostic = true ∧
    (on_reaction_add envC ⟨EMOJI_TRIGGER⟩ ⟨false, []⟩
      ⟨[], [⟨some "image/png".data, ['u']⟩], ['j']⟩).any isDiagnostic = true ∧
    (on_reaction_add envB ⟨EMOJI_TRIGGER⟩ ⟨false, []⟩
      ⟨[], [⟨some "image/png".data, ['u']⟩], ['j']⟩).any isDiagnostic = true ∧
    (on_reaction_add envA ⟨EMOJI_TRIGGER⟩ ⟨false, []⟩
      ⟨List.replicate 501 'a', [], ['j']⟩).any isDiagnostic = true :=
  have H := C7_taxonomy_recovered
  ⟨H.1 envA ['t'] rfl (by decide) (by decide),
   H.2.1 envB ['t'] ['k'] ⟨500, []⟩ rfl rfl (by decide) (by decide) (by decide),
   H.2.2.1 envC ['t'] ['k'] ['e'] rfl rfl (by decide) (by decide),
   H.2.2.2.1 envC "http://a.jpg".data rfl (by decide),
   H.2.2.2.2.1 envB "http://a.jpg".data (fun _ => ['e']) rfl (fun _ => rfl) (by decide),
   H.2.2.2.2.2.1 envA (List.replicate 501 'a') (by decide) (by decide),
   H.2.2.2.2.2.2.1 envA ⟨EMOJI_TRIGGER⟩ ⟨false, []⟩ ⟨['t'], [], ['j']⟩
     rfl rfl rfl (by decide) (by decide) rfl,
   H.2.2.2.2.2.2.2.1 envB ⟨EMOJI_TRIGGER⟩ ⟨false, []⟩ ⟨['t'], [], ['j']⟩
     ['k'] ⟨500, []⟩ rfl rfl rfl (by decide) (by decide) rfl rfl (by decide),
   H.2.2.2.2.2.2.2.2.1 envC ⟨EMOJI_TRIGGER⟩ ⟨false, []⟩ ⟨['t'], [], ['j']⟩
     ['k'] ['e'] rfl rfl rfl (by decide) (by decide) rfl rfl,
   H.2.2.2.2.2.2.2.2.2.1 envC ⟨EMOJI_TRIGGER⟩ ⟨false, []⟩
     ⟨[], [⟨some "image/png".data, ['u']⟩], ['j']⟩ ⟨some "image/png".data, ['u']⟩ []
     rfl rfl rfl (by decide) rfl,
   H.2.2.2.2.2.2.2.2.2.2.1 envB ⟨EMOJI_TRIGGER⟩ ⟨false, []⟩
     ⟨[], [⟨some "image/png".data, ['u']⟩], ['j']⟩ ⟨some "image/png".data, ['u']⟩ []
     (fun _ => ['e']) rfl rfl rfl (by decide) rfl (fun _ => rfl),
   H.2.2.2.2.2.2.2.2.2.2.2 envA ⟨EMOJI_TRIGGER⟩ ⟨false, []⟩
     ⟨List.replicate 501 'a', [], ['j']⟩ rfl rfl rfl (by decide)⟩
